import Mathlib

/-!
# Verification of the `yc_instance` reconciliation module

Shallow embedding of `src/learning/plugins/modules/yc_instance.py`.

The module reconciles a single named cloud compute instance against a
desired configuration by shelling out to the `yc` CLI.  The embedding
models:

* JSON values produced by `json.loads` as the inductive type `JVal`,
  together with Python truthiness (`JVal.truthy`) and `dict.get`
  (`pyGet`).  JSON numbers are modelled as integers; no claim involves
  fractional numbers.
* Each external invocation of the `yc` CLI as an oracle outcome supplied
  by a `World`: the `k`-th execution of the list command yields
  `World.listOutcomes k`, the create command yields
  `World.createOutcome`.  `World.pollIters` is the number of times the
  poll-loop guard `time.time() - start < timeout_s` evaluates to true
  (time is strictly increasing, so the guard holds on a prefix of the
  iterations).
* The error taxonomy as the inductive `YcError`.  In the source all
  external failures are `RuntimeError`s, but they are raised at distinct
  sites with distinct messages: `_run` raises the tool's diagnostic
  (CommandError), `_list_instances` raises
  `"Failed to parse yc list output: ..."` (ParseError); `AnsibleModule`
  failures for a missing tool and for validation happen via `fail_json`
  before the `try` block.
-/

/-- A JSON value as produced by `json.loads`.  Numeric leaves are
modelled as integers (no claim concerns fractional numbers). `obj`
models a Python dict with unique keys, as produced by `json.loads`. -/
inductive JVal where
  | null
  | bool (b : Bool)
  | num (n : Int)
  | str (s : String)
  | arr (xs : List JVal)
  | obj (fields : List (String × JVal))

/-- Python truthiness of a JSON-derived value: `None`, `False`, `0`,
`""`, `[]` and `\x7b\x7d` are falsy, everything else is truthy. -/
def JVal.truthy : JVal → Bool
  | .null => false
  | .bool b => b
  | .num n => n != 0
  | .str s => !s.isEmpty
  | .arr xs => !xs.isEmpty
  | .obj fs => !fs.isEmpty

/-- Key lookup in the field list of a JSON object (a Python dict;
`json.loads` yields unique keys, so first-match lookup is dict lookup). -/
def jlookup : List (String × JVal) → String → Option JVal
  | [], _ => none
  | (k, v) :: rest, key => if k = key then some v else jlookup rest key

/-- Python `d.get(key)` on a dict value: `some v` when the key is
present with value `v`, `none` when absent.  Only applied to values that
are dicts (`.get` on a non-dict raises; callers in the source only apply
it to dicts or guard with `try`). -/
def pyGet : JVal → String → Option JVal
  | .obj fs, key => jlookup fs key
  | _, _ => none

/-- Python `d.get(key)` normalised to the observable result: a stored
JSON `null` and a missing key both come back as Python `None`. -/
def pyGetN (d : JVal) (key : String) : Option JVal :=
  match pyGet d key with
  | some JVal.null => none
  | some v => some v
  | none => none

/-- Truthiness of `d.get(key)` (Python `if d.get(key):`). -/
def getTruthy (d : JVal) (key : String) : Bool :=
  match pyGet d key with
  | some v => v.truthy
  | none => false

/-- Python `x or dflt`: `x` when truthy, otherwise `dflt`; a missing
value (`None`) is falsy. -/
def pyOr (v : Option JVal) (dflt : JVal) : JVal :=
  match v with
  | some x => if x.truthy then x else dflt
  | none => dflt

/-- `_extract_public_ip` (yc_instance.py lines 173-182).

```python
def _extract_public_ip(inst: dict) -> str | None:
    try:
        nics = inst.get("network_interfaces") or []
        if not nics:
            return None
        addr = nics[0].get("primary_v4_address") or \x7b\x7d
        nat = addr.get("one_to_one_nat") or \x7b\x7d
        return nat.get("address")
    except Exception:
        return None
```

Every Python execution path that raises (a non-dict `inst`, a truthy
non-list `nics`, a truthy non-dict first interface / `primary_v4_address`
/ `one_to_one_nat`) is caught by the bare `except` and yields `None`,
which the embedding returns as `none`.  A stored JSON `null` under
`"address"` is Python `None` as well. -/
def _extract_public_ip (inst : JVal) : Option JVal :=
  match inst with
  | .obj fs =>
    let nics := pyOr (jlookup fs "network_interfaces") (.arr [])
    if nics.truthy then
      match nics with
      | .arr (n0 :: _) =>
        match n0 with
        | .obj g =>
          let addr := pyOr (jlookup g "primary_v4_address") (.obj [])
          match addr with
          | .obj h =>
            let oton := pyOr (jlookup h "one_to_one_nat") (.obj [])
            match oton with
            | .obj nf =>
              match jlookup nf "address" with
              | some JVal.null => none
              | some v => some v
              | none => none
            | _ => none
          | _ => none
        | _ => none
      | _ => none
    else none
  | _ => none

/-- Error taxonomy of the pass (spec §7).  In the source, `cmdError` and
`parseError` are both `RuntimeError`s raised at distinct sites
(`_run` line 155 and `_list_instances` line 163); `toolNotFound` and
`validationError` are direct `fail_json` calls before the `try` block,
and `unexpectedError` is the catch-all `except Exception` handler. -/
inductive YcError where
  | toolNotFound
  | validationError (msg : String)
  | cmdError (msg : String)
  | parseError (msg : String)
  | unexpectedError (msg : String)
  deriving DecidableEq

/-- Outcome of one execution of the `yc compute instance list` command,
as seen by `_list_instances`: the process failed (`_run` raised), or it
succeeded and its stdout parsed to the JSON value `v`
(`json.loads(out or "[]")`; empty stdout is `ok (.arr [])`), or it
succeeded but its stdout was not valid JSON (`parseFailure` carries the
`json.JSONDecodeError` text). -/
inductive ListOutcome where
  | cmdError (msg : String)
  | ok (v : JVal)
  | parseFailure (msg : String)

/-- `_list_instances` (lines 158-163): run the list command, parse the
output; a `JSONDecodeError` becomes
`RuntimeError("Failed to parse yc list output: ...")`. -/
def _list_instances : ListOutcome → Except YcError JVal
  | .cmdError m => .error (.cmdError m)
  | .parseFailure m => .error (.parseError ("Failed to parse yc list output: " ++ m))
  | .ok v => .ok v

/-- Whether a list element matches the requested name:
`inst.get("name") == name`.  In Python this is true exactly when the
`"name"` key holds that very string (a missing key gives `None`, and
`None`, numbers, lists etc. are never `==` to a `str`). -/
def nameMatches (fs : List (String × JVal)) (name : String) : Bool :=
  match jlookup fs "name" with
  | some (JVal.str s) => s == name
  | _ => false

/-- The scan of `_get_instance_by_name` over the elements of a parsed
JSON array: the first element whose `"name"` field equals `name` wins;
an element that is not a dict makes `inst.get` raise
(`AttributeError`/`TypeError`), which the catch-all handler in `main`
turns into an "Unexpected error" failure. -/
def scanByName (name : String) : List JVal → Except YcError (Option JVal)
  | [] => .ok none
  | x :: xs =>
    match x with
    | .obj fs => if nameMatches fs name then .ok (some (.obj fs)) else scanByName name xs
    | _ => .error (.unexpectedError "Unexpected error: element is not a dict")

/-- `_get_instance_by_name` (lines 166-170) applied to the outcome of
one list-command execution.  `for inst in _list_instances(...)` iterates
Python-style over the parsed value: a JSON array iterates its elements;
an empty dict or empty string iterates zero times (no match found); a
nonempty dict iterates its string keys and a nonempty string its
characters, so the first `inst.get` raises `AttributeError`; `null`,
numbers and booleans are not iterable (`TypeError`). -/
def _get_instance_by_name (name : String) (lo : ListOutcome) : Except YcError (Option JVal) :=
  match _list_instances lo with
  | .error e => .error e
  | .ok v =>
    match v with
    | .arr xs => scanByName name xs
    | .obj [] => .ok none
    | .obj _ => .error (.unexpectedError "Unexpected error: AttributeError")
    | .str s => if s.isEmpty then .ok none else .error (.unexpectedError "Unexpected error: AttributeError")
    | _ => .error (.unexpectedError "Unexpected error: TypeError")

/-- The poll-loop guard `if inst and inst.get("status"):` (line 189):
the looked-up instance is present, truthy (a nonempty dict) and its
`"status"` field is truthy (in particular a non-empty string). -/
def goodInst : Option JVal → Bool
  | some d => d.truthy && getTruthy d "status"
  | none => false

/-- The loop of `_poll_status` (lines 185-192), with time abstracted:
`pollAux lookups k fuel` runs the loop whose next directory lookup is
`lookups k` and whose guard `time.time() - start < timeout_s` will
evaluate to true `fuel` more times.  When the guard fails the final
lookup is performed and returned as is (line 192). -/
def pollAux (lookups : Nat → Except YcError (Option JVal)) : Nat → Nat → Except YcError (Option JVal)
  | k, 0 => lookups k
  | k, fuel + 1 =>
    match lookups k with
    | .error e => .error e
    | .ok inst => if goodInst inst then .ok inst else pollAux lookups (k + 1) fuel

/-- `_poll_status` (lines 185-192): poll until a lookup returns a record
with a truthy status, the lookup raises, or the time budget ends; on
timeout perform one final lookup and return whatever it finds. -/
def _poll_status (lookups : Nat → Except YcError (Option JVal)) (iters : Nat) : Except YcError (Option JVal) :=
  pollAux lookups 0 iters

/-- The module parameters (spec §3 DesiredInstance), as delivered by the
`AnsibleModule` argument parsing: the required strings are present, the
integer fields are arbitrary integers, `ssh_key` is optional. -/
structure Params where
  name : String
  folder_id : String
  zone : String
  subnet_id : String
  image_id : String
  platform_id : String
  cores : Int
  memory_gb : Int
  disk_gb : Int
  disk_type : String
  core_fraction : Int
  preemptible : Bool
  nat : Bool
  ssh_key : Option String

/-- The four validation checks of `main` (lines 227-234), in source
order; `fail_json` aborts, so the first violated constraint wins.
Returns the `fail_json` message, or `none` when all checks pass. -/
def validate (p : Params) : Option String :=
  if p.cores < 1 then some "cores must be >= 1"
  else if p.memory_gb < 1 then some "memory_gb must be >= 1"
  else if p.disk_gb < 1 then some "disk_gb must be >= 1"
  else if ¬(p.core_fraction = 5 ∨ p.core_fraction = 20 ∨ p.core_fraction = 50 ∨ p.core_fraction = 100) then
    some "core_fraction must be one of 5, 20, 50, 100"
  else none

/-- `boot_disk` (line 251): `f"size=\x7bp['disk_gb']\x7dGB,type=\x7bp['disk_type']\x7d,image-id=\x7bp['image_id']\x7d"`. -/
def boot_disk (p : Params) : String :=
  "size=" ++ toString p.disk_gb ++ "GB,type=" ++ p.disk_type ++ ",image-id=" ++ p.image_id

/-- The `--network-interface` argument `nic` (lines 268-270):
`subnet-id=...` with `,nat-ip-version=ipv4` appended exactly when
`nat` is true. -/
def nic_arg (p : Params) : String :=
  "subnet-id=" ++ p.subnet_id ++ (if p.nat then ",nat-ip-version=ipv4" else "")

/-- The argument vector `create_cmd` built in `main` (lines 252-275):
the fixed sizing/placement arguments, then exactly one of
`--preemptible` / `--non-preemptible` (line 265), then the network
interface, then `--ssh-key` only when `ssh_key` is truthy (a present,
non-empty string; line 274 tests `if p.get("ssh_key"):`). -/
def create_cmd (p : Params) : List String :=
  ["yc", "compute", "instance", "create",
   "--name", p.name,
   "--folder-id", p.folder_id,
   "--zone", p.zone,
   "--create-boot-disk", boot_disk p,
   "--cores", toString p.cores,
   "--memory", toString p.memory_gb,
   "--core-fraction", toString p.core_fraction,
   "--platform-id", p.platform_id,
   "--format", "json"]
  ++ [if p.preemptible then "--preemptible" else "--non-preemptible"]
  ++ ["--network-interface", nic_arg p]
  ++ (match p.ssh_key with
      | some k => if k.isEmpty then [] else ["--ssh-key", k]
      | none => [])

/-- Outcome of the single execution of the create command (line 277):
either `_run` raised (non-zero exit), or it returned stdout whose parse
`json.loads(out or "\x7b\x7d")` succeeded with value `v` (`ok (some v)`;
empty stdout gives `ok (some (.obj []))`) or raised `JSONDecodeError`
(`ok none`). -/
inductive CreateOutcome where
  | cmdError (msg : String)
  | ok (parsed : Option JVal)

/-- The environment of one reconciliation pass: whether the `yc` binary
is on `PATH`, Ansible check mode, the oracle of list-command outcomes
(the `k`-th executed list command yields `listOutcomes k`), the create
command's outcome, and the number of times the poll-loop guard holds. -/
structure World where
  ycFound : Bool
  checkMode : Bool
  listOutcomes : Nat → ListOutcome
  createOutcome : CreateOutcome
  pollIters : Nat

/-- The key/value pairs passed to `module.exit_json` (minus `changed`
handled separately): `none` models both an absent key and Python
`None`. -/
structure ExitResult where
  changed : Bool
  instance_id : Option JVal
  name : Option JVal
  status : Option JVal
  public_ip : Option JVal

/-- Final outcome of the pass: `module.fail_json` with an error of the
taxonomy, or `module.exit_json` with a result. -/
inductive ModuleResult where
  | failed (e : YcError)
  | ok (r : ExitResult)

/-- A pass outcome plus the externally observable actions: whether any
list command was executed, and the argument vector of the executed
create command (if any). -/
structure PassOutcome where
  result : ModuleResult
  listInvoked : Bool
  createRun : Option (List String)

/-- The `exit_json` call of the pre-existing branch (lines 240-246):
`changed=False` and the fields copied/derived from the found record. -/
def reportFound (inst : JVal) : ExitResult :=
  { changed := false
    instance_id := pyGetN inst "id"
    name := pyGetN inst "name"
    status := pyGetN inst "status"
    public_ip := _extract_public_ip inst }

/-- The `exit_json` call after create + poll (lines 293-299):
`changed=True`, `name` echoed from the parameters, and the other fields
drawn from the poller's record when it is truthy
(`inst.get("id") if inst else None` etc.). -/
def reportCreated (p : Params) (inst : Option JVal) : ExitResult :=
  match inst with
  | some d =>
    if d.truthy then
      { changed := true
        instance_id := pyGetN d "id"
        name := some (.str p.name)
        status := pyGetN d "status"
        public_ip := _extract_public_ip d }
    else
      { changed := true, instance_id := none, name := some (.str p.name)
        status := none, public_ip := none }
  | none =>
      { changed := true, instance_id := none, name := some (.str p.name)
        status := none, public_ip := none }

/-- The directory lookups performed by the poll loop: the initial
existence check consumed list-command execution `0`, so the `k`-th
lookup inside `_poll_status` is list-command execution `k + 1`. -/
def pollLookups (p : Params) (w : World) : Nat → Except YcError (Option JVal) :=
  fun k => _get_instance_by_name p.name (w.listOutcomes (k + 1))

/-- `main` (lines 195-304): tool check, validation, existence lookup,
check-mode short-circuit, create, poll, report.  `RuntimeError`s from
`_run`/`_list_instances` and the unexpected-error exceptions surface as
`fail_json` (lines 301-304).  The `created` binding mirrors line 279-281:
the create command's stdout parse, with a malformed parse silently
replaced by the empty dict; it is unused by the live code. -/
def mainPass (p : Params) (w : World) : PassOutcome :=
  if w.ycFound = false then
    { result := .failed .toolNotFound, listInvoked := false, createRun := none }
  else
    match validate p with
    | some m => { result := .failed (.validationError m), listInvoked := false, createRun := none }
    | none =>
      match _get_instance_by_name p.name (w.listOutcomes 0) with
      | .error e => { result := .failed e, listInvoked := true, createRun := none }
      | .ok (some inst) =>
        { result := .ok (reportFound inst), listInvoked := true, createRun := none }
      | .ok none =>
        if w.checkMode then
          { result := .ok { changed := true, instance_id := none, name := none
                            status := none, public_ip := none }
            listInvoked := true, createRun := none }
        else
          match w.createOutcome with
          | .cmdError m =>
            { result := .failed (.cmdError m), listInvoked := true
              createRun := some (create_cmd p) }
          | .ok parsed =>
            let created : JVal := match parsed with | some v => v | none => JVal.obj []
            match _poll_status (pollLookups p w) w.pollIters with
            | .error e =>
              { result := .failed e, listInvoked := true, createRun := some (create_cmd p) }
            | .ok inst =>
              { result := .ok (reportCreated p inst), listInvoked := true
                createRun := some (create_cmd p) }

/-! ## Concrete sample data (used by the witnesses below) -/

/-- A well-formed desired configuration (the spec's running example). -/
def demoParams : Params :=
  { name := "demo", folder_id := "f1", zone := "ru-central1-a", subnet_id := "subnet-1"
    image_id := "img-1", platform_id := "standard-v2", cores := 2, memory_gb := 2
    disk_gb := 10, disk_type := "network-hdd", core_fraction := 5, preemptible := true
    nat := true, ssh_key := none }

/-- An invalid configuration: `cores = 0` together with other invalid
fields (`memory_gb = 0`, `core_fraction = 33`). -/
def badParams : Params :=
  { demoParams with cores := 0, memory_gb := 0, core_fraction := 33 }

/-- A configuration whose only invalid field is `core_fraction = 33`. -/
def frac33Params : Params :=
  { demoParams with core_fraction := 33 }

/-- Fields of the innermost NAT object of the sample record. -/
def natFields : List (String × JVal) := [("address", JVal.str "1.2.3.4")]

/-- Fields of the primary-address object of the sample record. -/
def addrFields : List (String × JVal) := [("one_to_one_nat", JVal.obj natFields)]

/-- Fields of the first network interface of the sample record. -/
def nicFields : List (String × JVal) := [("primary_v4_address", JVal.obj addrFields)]

/-- Fields of the sample observed record for instance `demo`:
running, with a NAT address. -/
def demoFields : List (String × JVal) :=
  [("id", JVal.str "i-123"), ("name", JVal.str "demo"), ("status", JVal.str "RUNNING"),
   ("network_interfaces", JVal.arr [JVal.obj nicFields])]

/-- The sample observed record (spec Scenario B). -/
def demoRec : JVal := JVal.obj demoFields

/-- A record for `demo` that carries an id but no status field yet. -/
def recNoStatus : JVal := JVal.obj [("name", JVal.str "demo"), ("id", JVal.str "i1")]

/-- World in which the very first directory lookup finds `demo`. -/
def wFound : World :=
  { ycFound := true, checkMode := false, listOutcomes := fun _ => .ok (.arr [demoRec])
    createOutcome := .ok (some (.obj [])), pollIters := 0 }

/-- World in which the list command succeeds but emits malformed data. -/
def wParseFail : World :=
  { ycFound := true, checkMode := false
    listOutcomes := fun _ => .parseFailure "Expecting value: line 1 column 1 (char 0)"
    createOutcome := .ok none, pollIters := 0 }

/-- World in which the instance is absent, create succeeds, and the
first poll lookup already sees the running record (spec Scenario A). -/
def wCreated : World :=
  { ycFound := true, checkMode := false
    listOutcomes := fun k => if k = 0 then .ok (.arr []) else .ok (.arr [demoRec])
    createOutcome := .ok (some (.obj [("id", JVal.str "from-create-stdout")]))
    pollIters := 3 }

/-- World in which create succeeds but no lookup ever finds the
instance, and the poll budget ends (spec Scenario C). -/
def wTimeout : World :=
  { ycFound := true, checkMode := false, listOutcomes := fun _ => .ok (.arr [])
    createOutcome := .ok (some (.obj [])), pollIters := 2 }

/-- World in which the poll budget ends without any lookup seeing a
status, but the final lookup returns a record carrying an id and no
status. -/
def wLateRecord : World :=
  { ycFound := true, checkMode := false
    listOutcomes := fun k => if k ≤ 2 then .ok (.arr []) else .ok (.arr [recNoStatus])
    createOutcome := .ok (some (.obj [])), pollIters := 2 }

/-- World in which the create command succeeds with malformed stdout
(`createOutcome = .ok none`) and the first poll lookup then finds the
running record. -/
def wBadCreateOut : World :=
  { ycFound := true, checkMode := false
    listOutcomes := fun k => if k = 0 then .ok (.arr []) else .ok (.arr [demoRec])
    createOutcome := .ok none, pollIters := 1 }

/-! ## Helper lemmas about the directory lookup -/

/-- A record returned by the scan carries the requested name: the match
condition `inst.get("name") == name` forces the `"name"` field to be
that very string (and `None` is never `==` a string). -/
theorem scanByName_found {name : String} : ∀ {xs : List JVal} {inst : JVal},
    scanByName name xs = .ok (some inst) → pyGetN inst "name" = some (.str name) := by
  intro xs
  induction xs with
  | nil => intro inst h; simp [scanByName] at h
  | cons x xs ih =>
    intro inst h
    match x with
    | .obj fs =>
      by_cases hm : nameMatches fs name
      · simp only [scanByName, hm, if_true] at h
        cases h
        have : jlookup fs "name" = some (.str name) := by
          unfold nameMatches at hm
          split at hm
          · next s heq => simp only [beq_iff_eq] at hm; rw [heq, hm]
          · exact absurd hm (by simp)
        simp [pyGetN, pyGet, this]
      · simp only [scanByName, hm, if_false] at h
        exact ih h
    | .null => simp [scanByName] at h
    | .bool b => simp [scanByName] at h
    | .num n => simp [scanByName] at h
    | .str s => simp [scanByName] at h
    | .arr ys => simp [scanByName] at h

/-- A successful by-name lookup only ever returns a record whose
`"name"` field is the requested name. -/
theorem get_by_name_found {name : String} {lo : ListOutcome} {inst : JVal}
    (h : _get_instance_by_name name lo = .ok (some inst)) :
    pyGetN inst "name" = some (.str name) := by
  unfold _get_instance_by_name at h
  match lo with
  | .cmdError m => simp [_list_instances] at h
  | .parseFailure m => simp [_list_instances] at h
  | .ok v =>
    simp only [_list_instances] at h
    match v with
    | .null => simp at h
    | .bool b => simp at h
    | .num n => simp at h
    | .str s =>
      by_cases hs : s.isEmpty <;> simp [hs] at h
    | .arr xs => exact scanByName_found h
    | .obj [] => simp at h
    | .obj (f :: fs) => simp at h

/-! ## Helper lemmas about the poll loop -/

/-- If every in-budget lookup succeeds without a truthy status, the loop
exhausts its budget and returns the final lookup, performed after the
guard fails. -/
theorem pollAux_timeout (lookups : Nat → Except YcError (Option JVal)) :
    ∀ (fuel k : Nat),
      (∀ j, k ≤ j → j < k + fuel → ∃ v, lookups j = .ok v ∧ goodInst v = false) →
      pollAux lookups k fuel = lookups (k + fuel) := by
  intro fuel
  induction fuel with
  | zero => intro k _; simp [pollAux]
  | succ fuel ih =>
    intro k h
    obtain ⟨v, hv, hg⟩ := h k (Nat.le_refl k) (by omega)
    have hrec : pollAux lookups k (fuel + 1) = pollAux lookups (k + 1) fuel := by
      simp [pollAux, hv, hg]
    rw [hrec, ih (k + 1) (fun j h1 h2 => h j (by omega) (by omega))]
    congr 1
    omega

/-- If the lookups before index `i` succeed without a truthy status and
the lookup at `i` (still within budget) finds a record with truthy
status, the loop returns exactly that record. -/
theorem pollAux_first_good (lookups : Nat → Except YcError (Option JVal)) :
    ∀ (i fuel k : Nat), i < fuel →
      (∀ j, j < i → ∃ v, lookups (k + j) = .ok v ∧ goodInst v = false) →
      ∀ r, lookups (k + i) = .ok r → goodInst r = true →
      pollAux lookups k fuel = .ok r := by
  intro i
  induction i with
  | zero =>
    intro fuel k hf _ r hr hg
    match fuel, hf with
    | fuel + 1, _ =>
      rw [Nat.add_zero] at hr
      simp [pollAux, hr, hg]
  | succ i ih =>
    intro fuel k hf hb r hr hg
    match fuel, hf with
    | fuel + 1, _ =>
      obtain ⟨v, hv, hgv⟩ := hb 0 (by omega)
      rw [Nat.add_zero] at hv
      have hrec : pollAux lookups k (fuel + 1) = pollAux lookups (k + 1) fuel := by
        simp [pollAux, hv, hgv]
      rw [hrec]
      refine ih fuel (k + 1) (by omega) (fun j hj => ?_) r ?_ hg
      · obtain ⟨u, hu, hgu⟩ := hb (j + 1) (by omega)
        exact ⟨u, by rw [show k + 1 + j = k + (j + 1) by omega]; exact hu, hgu⟩
      · rw [show k + 1 + i = k + (i + 1) by omega]; exact hr

/-! ## Unfolding `mainPass` down to the create/poll stage -/

/-- When the tool is present, validation passes, the existence lookup
finds nothing, check mode is off and the create command succeeds, the
pass reduces to polling plus reporting, with the create command
executed exactly as built. -/
theorem mainPass_created_eq (p : Params) (w : World) (parsed : Option JVal)
    (hyc : w.ycFound = true) (hval : validate p = none)
    (h0 : _get_instance_by_name p.name (w.listOutcomes 0) = .ok none)
    (hcm : w.checkMode = false) (hcr : w.createOutcome = .ok parsed) :
    mainPass p w =
      match _poll_status (pollLookups p w) w.pollIters with
      | .error e =>
        { result := .failed e, listInvoked := true, createRun := some (create_cmd p) }
      | .ok inst =>
        { result := .ok (reportCreated p inst), listInvoked := true
          createRun := some (create_cmd p) } := by
  unfold mainPass
  rw [hyc, hval, h0, hcm, hcr]
  rfl

/-! ## String lemmas: integer representations never collide with flags -/

/-- `Nat.digitChar` never produces a minus sign. -/
theorem digitChar_ne_dash (n : Nat) : Nat.digitChar n ≠ '-' := by
  by_cases h : n < 16
  · interval_cases n <;> decide
  · unfold Nat.digitChar
    repeat rw [if_neg (by omega)]
    decide

/-- `Nat.toDigitsCore` only prepends digit characters, so it never
introduces a minus sign. -/
theorem toDigitsCore_ne_dash (b fuel : Nat) : ∀ (n : Nat) (ds : List Char),
    (∀ c ∈ ds, c ≠ '-') → ∀ c ∈ Nat.toDigitsCore b fuel n ds, c ≠ '-' := by
  induction fuel with
  | zero => intro n ds h; simpa [Nat.toDigitsCore] using h
  | succ fuel ih =>
    intro n ds h
    simp only [Nat.toDigitsCore]
    split
    · intro c hc
      rcases List.mem_cons.mp hc with rfl | hc
      · exact digitChar_ne_dash _
      · exact h c hc
    · refine ih _ _ (fun c hc => ?_)
      rcases List.mem_cons.mp hc with rfl | hc
      · exact digitChar_ne_dash _
      · exact h c hc

/-- The decimal representation of a natural number contains no minus
sign. -/
theorem natRepr_ne_dash (n : Nat) : ∀ c ∈ (Nat.repr n).data, c ≠ '-' := by
  intro c hc
  have hc' : c ∈ Nat.toDigits 10 n := by
    simpa [Nat.repr, List.asString] using hc
  exact toDigitsCore_ne_dash 10 (n + 1) n [] (by intro c hc; simp at hc) c hc'

/-- `str(i)` for an integer never equals a string starting with two
minus signs (such as a `--flag`). -/
theorem int_toString_ne_dashdash (i : Int) (s : String)
    (hs : s.data.take 2 = ['-', '-']) : toString i ≠ s := by
  intro h
  match i with
  | Int.ofNat m =>
    have hdata : (Nat.repr m).data = s.data := congrArg String.data h
    have hmem : '-' ∈ (Nat.repr m).data := by
      rw [hdata]
      exact List.take_subset 2 s.data (by rw [hs]; exact List.mem_cons_self '-' ['-'])
    exact natRepr_ne_dash m '-' hmem rfl
  | Int.negSucc m =>
    have hdata : ("-" ++ Nat.repr (m + 1)).data = s.data := congrArg String.data h
    rw [String.data_append] at hdata
    have hdata2 : '-' :: (Nat.repr (m + 1)).data = s.data := hdata
    have htake : (Nat.repr (m + 1)).data.take 1 = ['-'] := by
      rw [← hdata2] at hs
      simpa using hs
    have hmem : '-' ∈ (Nat.repr (m + 1)).data :=
      List.take_subset 1 _ (by rw [htake]; exact List.mem_cons_self '-' [])
    exact natRepr_ne_dash (m + 1) '-' hmem rfl

/-- Both integer-argument helpers. -/
theorem int_toString_ne_flags (i : Int) :
    toString i ≠ "--preemptible" ∧ toString i ≠ "--non-preemptible" :=
  ⟨int_toString_ne_dashdash i _ (by decide), int_toString_ne_dashdash i _ (by decide)⟩

/-- Appending to a string keeps its first character. -/
theorem head_append_of_head {u v : String} {c : Char} (h : u.data.head? = some c) :
    (u ++ v).data.head? = some c := by
  rw [String.data_append]
  cases hu : u.data with
  | nil => rw [hu] at h; simp at h
  | cons a t =>
    rw [hu] at h
    simp only [List.head?_cons, Option.some.injEq] at h
    simp [h]

/-- Strings with distinct first characters are distinct. -/
theorem ne_of_head_ne {a b : String} {c : Char} (ha : a.data.head? = some c)
    (hb : b.data.head? ≠ some c) : a ≠ b := fun he => hb (he ▸ ha)

/-- The boot-disk argument starts with `size=`, so it is neither
preemptibility flag. -/
theorem boot_disk_ne_flags (p : Params) :
    boot_disk p ≠ "--preemptible" ∧ boot_disk p ≠ "--non-preemptible" := by
  have hh : (boot_disk p).data.head? = some 's' := by
    unfold boot_disk
    exact head_append_of_head (head_append_of_head (head_append_of_head
      (head_append_of_head (head_append_of_head rfl))))
  exact ⟨ne_of_head_ne hh (by decide), ne_of_head_ne hh (by decide)⟩

/-- The network-interface argument starts with `subnet-id=`, so it is
neither preemptibility flag. -/
theorem nic_arg_ne_flags (p : Params) :
    nic_arg p ≠ "--preemptible" ∧ nic_arg p ≠ "--non-preemptible" := by
  have hh : (nic_arg p).data.head? = some 's' := by
    unfold nic_arg
    exact head_append_of_head (head_append_of_head rfl)
  exact ⟨ne_of_head_ne hh (by decide), ne_of_head_ne hh (by decide)⟩

/-! ## Claims -/

/-- C1: whenever the directory lookup of a pass finds an instance with
the requested name, the pass exits with `changed = false`, with the
identifier, name and status copied from the found record (normalised as
by Python `dict.get`) and the public address derived from it by
`_extract_public_ip`, and the create command is never executed. -/
theorem C1_preexisting_no_create (p : Params) (w : World) (inst : JVal)
    (hyc : w.ycFound = true) (hval : validate p = none)
    (hfound : _get_instance_by_name p.name (w.listOutcomes 0) = .ok (some inst)) :
    mainPass p w =
      { result := .ok { changed := false, instance_id := pyGetN inst "id"
                        name := pyGetN inst "name", status := pyGetN inst "status"
                        public_ip := _extract_public_ip inst }
        listInvoked := true, createRun := none }
    ∧ pyGetN inst "name" = some (.str p.name) := by
  constructor
  · unfold mainPass
    rw [hyc, hval, hfound]
    rfl
  · exact get_by_name_found hfound

/-- C1 witness: Scenario B — the lookup finds `demo`, running with NAT
address `1.2.3.4`; the pass reports it unchanged, no create executed. -/
theorem C1_witness :
    mainPass demoParams wFound =
      { result := .ok { changed := false, instance_id := some (.str "i-123")
                        name := some (.str "demo"), status := some (.str "RUNNING")
                        public_ip := some (.str "1.2.3.4") }
        listInvoked := true, createRun := none } :=
  (C1_preexisting_no_create demoParams wFound demoRec rfl rfl rfl).1

/-- C2: the validation of `main` checks `cores ≥ 1`, `memory_gb ≥ 1`,
`disk_gb ≥ 1`, `core_fraction ∈ \x7b5, 20, 50, 100\x7d` in this fixed order and
reports the first violated constraint; in particular `cores = 0` always
yields the cores message, whatever else is invalid. -/
theorem C2_validation_first_violation (p : Params) :
    (validate p = some "cores must be >= 1" ↔ p.cores < 1)
    ∧ (validate p = some "memory_gb must be >= 1" ↔ 1 ≤ p.cores ∧ p.memory_gb < 1)
    ∧ (validate p = some "disk_gb must be >= 1" ↔
        1 ≤ p.cores ∧ 1 ≤ p.memory_gb ∧ p.disk_gb < 1)
    ∧ (validate p = some "core_fraction must be one of 5, 20, 50, 100" ↔
        1 ≤ p.cores ∧ 1 ≤ p.memory_gb ∧ 1 ≤ p.disk_gb ∧
          p.core_fraction ∉ ([5, 20, 50, 100] : List Int))
    ∧ (validate p = none ↔ 1 ≤ p.cores ∧ 1 ≤ p.memory_gb ∧ 1 ≤ p.disk_gb ∧
          p.core_fraction ∈ ([5, 20, 50, 100] : List Int))
    ∧ (p.cores = 0 → validate p = some "cores must be >= 1") := by
  unfold validate
  refine ⟨?_, ?_, ?_, ?_, ?_, ?_⟩ <;> split_ifs with h1 h2 h3 h4 <;> simp_all <;> omega

/-- C2 witness: `cores = 0` with `memory_gb = 0` and
`core_fraction = 33` also invalid still reports the cores constraint. -/
theorem C2_witness : validate badParams = some "cores must be >= 1" :=
  (C2_validation_first_violation badParams).2.2.2.2.2 rfl

/-- C3: a pass whose parameters violate a validation constraint fails
without executing the list command or the create command; when the tool
is present the failure is precisely the validation error (when the tool
is absent the pass fails even earlier, still with no external process). -/
theorem C3_invalid_no_external (p : Params) (w : World) (m : String)
    (hval : validate p = some m) :
    (mainPass p w).listInvoked = false ∧ (mainPass p w).createRun = none
    ∧ (∃ e, (mainPass p w).result = .failed e)
    ∧ (w.ycFound = true → mainPass p w =
        { result := .failed (.validationError m), listInvoked := false, createRun := none }) := by
  unfold mainPass
  cases hyc : w.ycFound with
  | false =>
    refine ⟨by simp, by simp, ⟨.toolNotFound, by simp⟩, by simp⟩
  | true =>
    rw [hval]
    refine ⟨by simp, by simp, ⟨.validationError m, by simp⟩, fun _ => by simp⟩

/-- C3 witness: `core_fraction = 33` is rejected with no list command
and no create command executed. -/
theorem C3_witness :
    (mainPass frac33Params wFound).listInvoked = false
    ∧ (mainPass frac33Params wFound).createRun = none
    ∧ mainPass frac33Params wFound =
        { result := .failed (.validationError "core_fraction must be one of 5, 20, 50, 100")
          listInvoked := false, createRun := none } := by
  obtain ⟨h1, h2, _, h4⟩ := C3_invalid_no_external frac33Params wFound
    "core_fraction must be one of 5, 20, 50, 100" rfl
  exact ⟨h1, h2, h4 rfl⟩

/-- C9: when the list command of the existence check succeeds but its
output is malformed, the pass fails with the parse error raised in
`_list_instances` — a different error from the command error raised in
`_run` for a non-zero exit — and the create command is never executed. -/
theorem C9_parse_failure_no_create (p : Params) (w : World) (m : String)
    (hyc : w.ycFound = true) (hval : validate p = none)
    (hlo : w.listOutcomes 0 = .parseFailure m) :
    mainPass p w =
      { result := .failed (.parseError ("Failed to parse yc list output: " ++ m))
        listInvoked := true, createRun := none }
    ∧ (∀ m', YcError.parseError ("Failed to parse yc list output: " ++ m) ≠ .cmdError m') := by
  constructor
  · unfold mainPass
    rw [hyc, hval, hlo]
    rfl
  · intro m' h
    exact YcError.noConfusion h

/-- C9 witness: Scenario D at a concrete malformed output. -/
theorem C9_witness :
    mainPass demoParams wParseFail =
      { result := .failed (.parseError
          "Failed to parse yc list output: Expecting value: line 1 column 1 (char 0)")
        listInvoked := true, createRun := none } :=
  (C9_parse_failure_no_create demoParams wParseFail
    "Expecting value: line 1 column 1 (char 0)" rfl rfl rfl).1

/-- C4: among the two preemptibility flags, the built creation command
contains exactly the one selected by the `preemptible` field — stated as
a filter over the whole argument vector, under the benign side
conditions that none of the free-form string parameters is itself one of
the two flag literals (the numeric arguments, the boot-disk spec and the
network-interface spec can never be, which is proved outright). -/
theorem C4_preemptible_exclusive (p : Params)
    (hn : p.name ≠ "--preemptible" ∧ p.name ≠ "--non-preemptible")
    (hf : p.folder_id ≠ "--preemptible" ∧ p.folder_id ≠ "--non-preemptible")
    (hz : p.zone ≠ "--preemptible" ∧ p.zone ≠ "--non-preemptible")
    (hpl : p.platform_id ≠ "--preemptible" ∧ p.platform_id ≠ "--non-preemptible")
    (hs : ∀ s, p.ssh_key = some s → s ≠ "--preemptible" ∧ s ≠ "--non-preemptible") :
    (create_cmd p).filter (fun s => s == "--preemptible" || s == "--non-preemptible")
      = [if p.preemptible then "--preemptible" else "--non-preemptible"]
    ∧ ("--preemptible" ∈ create_cmd p ↔ p.preemptible = true)
    ∧ ("--non-preemptible" ∈ create_cmd p ↔ p.preemptible = false) := by
  obtain ⟨hc1, hc2⟩ := int_toString_ne_flags p.cores
  obtain ⟨hm1, hm2⟩ := int_toString_ne_flags p.memory_gb
  obtain ⟨hq1, hq2⟩ := int_toString_ne_flags p.core_fraction
  obtain ⟨hb1, hb2⟩ := boot_disk_ne_flags p
  obtain ⟨hi1, hi2⟩ := nic_arg_ne_flags p
  have hfil : (create_cmd p).filter (fun s => s == "--preemptible" || s == "--non-preemptible")
      = [if p.preemptible then "--preemptible" else "--non-preemptible"] := by
    unfold create_cmd
    cases hp : p.preemptible <;>
      rcases hsk : p.ssh_key with _ | s
    · simp [hn.1, hn.2, hf.1, hf.2, hz.1, hz.2, hpl.1, hpl.2,
        hc1, hc2, hm1, hm2, hq1, hq2, hb1, hb2, hi1, hi2]
    · obtain ⟨hs1, hs2⟩ := hs s hsk
      by_cases he : s.isEmpty <;>
        simp [he, hn.1, hn.2, hf.1, hf.2, hz.1, hz.2, hpl.1, hpl.2,
          hc1, hc2, hm1, hm2, hq1, hq2, hb1, hb2, hi1, hi2, hs1, hs2]
    · simp [hn.1, hn.2, hf.1, hf.2, hz.1, hz.2, hpl.1, hpl.2,
        hc1, hc2, hm1, hm2, hq1, hq2, hb1, hb2, hi1, hi2]
    · obtain ⟨hs1, hs2⟩ := hs s hsk
      by_cases he : s.isEmpty <;>
        simp [he, hn.1, hn.2, hf.1, hf.2, hz.1, hz.2, hpl.1, hpl.2,
          hc1, hc2, hm1, hm2, hq1, hq2, hb1, hb2, hi1, hi2, hs1, hs2]
  refine ⟨hfil, ?_, ?_⟩
  · have h1 : "--preemptible" ∈ (create_cmd p).filter
        (fun s => s == "--preemptible" || s == "--non-preemptible") ↔
        "--preemptible" ∈ create_cmd p := by
      simp [List.mem_filter]
    rw [← h1, hfil]
    cases hp : p.preemptible <;> simp
  · have h2 : "--non-preemptible" ∈ (create_cmd p).filter
        (fun s => s == "--preemptible" || s == "--non-preemptible") ↔
        "--non-preemptible" ∈ create_cmd p := by
      simp [List.mem_filter]
    rw [← h2, hfil]
    cases hp : p.preemptible <;> simp

/-- C4 witness: the demo parameters (`preemptible = true`). -/
theorem C4_witness :
    (create_cmd demoParams).filter
        (fun s => s == "--preemptible" || s == "--non-preemptible") = ["--preemptible"]
    ∧ ("--preemptible" ∈ create_cmd demoParams ↔ demoParams.preemptible = true)
    ∧ ("--non-preemptible" ∈ create_cmd demoParams ↔ demoParams.preemptible = false) :=
  C4_preemptible_exclusive demoParams ⟨by decide, by decide⟩ ⟨by decide, by decide⟩
    ⟨by decide, by decide⟩ ⟨by decide, by decide⟩ (fun s h => by simp [demoParams] at h)

/-- C5: the network-interface argument is exactly the subnet reference
with the IPv4-NAT request appended when `nat` is true, and exactly the
subnet reference alone (nothing else at all) when `nat` is false; the
built creation command passes it right after `--network-interface`. -/
theorem C5_nat_translation (p : Params) :
    (p.nat = true → nic_arg p = "subnet-id=" ++ p.subnet_id ++ ",nat-ip-version=ipv4")
    ∧ (p.nat = false → nic_arg p = "subnet-id=" ++ p.subnet_id)
    ∧ (∃ l r, create_cmd p = l ++ ("--network-interface" :: nic_arg p :: r)) := by
  refine ⟨?_, ?_, ?_⟩
  · intro h; unfold nic_arg; rw [h]; rfl
  · intro h; unfold nic_arg; rw [h]; simp
  · refine ⟨["yc", "compute", "instance", "create",
      "--name", p.name, "--folder-id", p.folder_id, "--zone", p.zone,
      "--create-boot-disk", boot_disk p, "--cores", toString p.cores,
      "--memory", toString p.memory_gb, "--core-fraction", toString p.core_fraction,
      "--platform-id", p.platform_id, "--format", "json",
      if p.preemptible then "--preemptible" else "--non-preemptible"],
      (match p.ssh_key with
       | some k => if k.isEmpty then [] else ["--ssh-key", k]
       | none => []), ?_⟩
    simp [create_cmd]

/-- C5 witness: with `nat = true` the argument is the subnet reference
plus the IPv4-NAT request. -/
theorem C5_witness : nic_arg demoParams = "subnet-id=subnet-1,nat-ip-version=ipv4" :=
  (C5_nat_translation demoParams).1 rfl

/-- Every exit after a create reports `changed = True` (lines 293-299). -/
theorem reportCreated_changed (p : Params) (i : Option JVal) :
    (reportCreated p i).changed = true := by
  cases i with
  | none => rfl
  | some d =>
    unfold reportCreated
    by_cases h : d.truthy <;> simp [h]

/-- C6 (amended): when the create succeeds and every in-budget poll
lookup returns without a record with truthy status, the poller performs
one final lookup and returns its result without raising; the pass ends
with `changed = true` and no error, the fields drawn from that final
lookup's record — in particular all absent when the final lookup finds
nothing. -/
theorem C6_soft_timeout (p : Params) (w : World) (final : Option JVal)
    (hyc : w.ycFound = true) (hval : validate p = none)
    (h0 : _get_instance_by_name p.name (w.listOutcomes 0) = .ok none)
    (hcm : w.checkMode = false)
    (hcr : ∃ x, w.createOutcome = .ok x)
    (hin : ∀ k, k < w.pollIters → ∃ v, pollLookups p w k = .ok v ∧ goodInst v = false)
    (hfin : pollLookups p w w.pollIters = .ok final) :
    _poll_status (pollLookups p w) w.pollIters = .ok final
    ∧ mainPass p w = { result := .ok (reportCreated p final), listInvoked := true
                       createRun := some (create_cmd p) }
    ∧ (final = none → reportCreated p final =
        { changed := true, instance_id := none, name := some (.str p.name)
          status := none, public_ip := none }) := by
  obtain ⟨x, hx⟩ := hcr
  have hpoll : _poll_status (pollLookups p w) w.pollIters = .ok final := by
    unfold _poll_status
    rw [pollAux_timeout (pollLookups p w) w.pollIters 0
      (fun j h1 h2 => hin j (by omega))]
    simpa using hfin
  refine ⟨hpoll, ?_, ?_⟩
  · rw [mainPass_created_eq p w x hyc hval h0 hcm hx, hpoll]
  · intro h; rw [h]; rfl

/-- C6 witness: Scenario C — create succeeds, no lookup (in-budget or
final) ever finds the instance; the pass ends `changed = true` with all
optional fields absent and no error. -/
theorem C6_witness :
    mainPass demoParams wTimeout =
      { result := .ok { changed := true, instance_id := none, name := some (.str "demo")
                        status := none, public_ip := none }
        listInvoked := true, createRun := some (create_cmd demoParams) } := by
  obtain ⟨-, h2, h3⟩ := C6_soft_timeout demoParams wTimeout none rfl rfl rfl rfl
    ⟨some (.obj []), rfl⟩ (fun k _ => ⟨none, rfl, rfl⟩) rfl
  rw [h2, h3 rfl]
  rfl

/-- C6 counterexample: the claim as stated requires the identifier to be
absent whenever the budget elapses with no lookup seeing a non-empty
status.  In `wLateRecord` every in-budget lookup finds nothing and the
final lookup returns a record with an id but no status, yet the pass
reports that identifier — so it is not absent. -/
theorem C6_counterexample :
    (∀ k, k < wLateRecord.pollIters → pollLookups demoParams wLateRecord k = .ok none)
    ∧ pollLookups demoParams wLateRecord wLateRecord.pollIters = .ok (some recNoStatus)
    ∧ getTruthy recNoStatus "status" = false
    ∧ (mainPass demoParams wLateRecord).result =
        .ok { changed := true, instance_id := some (.str "i1"), name := some (.str "demo")
              status := none, public_ip := none }
    ∧ (some (JVal.str "i1") : Option JVal) ≠ none := by
  refine ⟨?_, rfl, rfl, rfl, fun h => Option.noConfusion h⟩
  intro k hk
  have hk2 : k < 2 := hk
  interval_cases k <;> rfl

/-- C7: in a pass that creates the instance and whose poll loop first
sees a record with truthy status at the `k`-th lookup, the reported
identifier, status and public address come from exactly that record;
and the whole pass outcome is independent of the create command's
parsed stdout. -/
theorem C7_fields_from_poller (p : Params) (w : World) (x : Option JVal) (k : Nat) (r : JVal)
    (hyc : w.ycFound = true) (hval : validate p = none)
    (h0 : _get_instance_by_name p.name (w.listOutcomes 0) = .ok none)
    (hcm : w.checkMode = false) (hcr : w.createOutcome = .ok x)
    (hk : k < w.pollIters)
    (hbefore : ∀ j, j < k → ∃ v, pollLookups p w j = .ok v ∧ goodInst v = false)
    (hfoundk : pollLookups p w k = .ok (some r))
    (hgood : goodInst (some r) = true) :
    (mainPass p w).result =
      .ok { changed := true, instance_id := pyGetN r "id", name := some (.str p.name)
            status := pyGetN r "status", public_ip := _extract_public_ip r }
    ∧ (∀ y, mainPass p w = mainPass p { w with createOutcome := CreateOutcome.ok y }) := by
  have htr : r.truthy = true := by
    unfold goodInst at hgood
    exact (Bool.and_eq_true_iff.mp hgood).1
  have hpoll : _poll_status (pollLookups p w) w.pollIters = .ok (some r) := by
    unfold _poll_status
    exact pollAux_first_good (pollLookups p w) k w.pollIters 0 hk
      (fun j hj => by simpa using hbefore j hj) (some r) (by simpa using hfoundk) hgood
  constructor
  · rw [mainPass_created_eq p w x hyc hval h0 hcm hcr, hpoll]
    simp [reportCreated, htr]
  · intro y
    rw [mainPass_created_eq p w x hyc hval h0 hcm hcr,
        mainPass_created_eq p { w with createOutcome := CreateOutcome.ok y }
          y hyc hval h0 hcm rfl]
    rfl

/-- C7 witness: Scenario A — the instance is created, the first poll
lookup sees it running; the reported fields come from the poller's
record, not from the create command's stdout (which names a different
id), and swapping that stdout changes nothing. -/
theorem C7_witness :
    (mainPass demoParams wCreated).result =
      .ok { changed := true, instance_id := some (.str "i-123"), name := some (.str "demo")
            status := some (.str "RUNNING"), public_ip := some (.str "1.2.3.4") }
    ∧ mainPass demoParams wCreated
      = mainPass demoParams
          { wCreated with createOutcome := CreateOutcome.ok (some (.obj [("id", JVal.str "other")])) } := by
  obtain ⟨h1, h2⟩ := C7_fields_from_poller demoParams wCreated
    (some (.obj [("id", JVal.str "from-create-stdout")])) 0 demoRec
    rfl rfl rfl rfl rfl (by decide) (fun j hj => absurd hj (by omega)) rfl rfl
  exact ⟨h1, h2 _⟩

/-- C10: when the create command succeeds but its stdout is malformed,
the parse failure is swallowed (`created = \x7b\x7d`), no ParseError is raised
for it, and the pass is exactly the pass in which the stdout had parsed
to an empty object: it proceeds to polling and reporting, and whenever
the poll returns without raising the pass exits with `changed = true`. -/
theorem C10_create_parse_silent (p : Params) (w : World)
    (hyc : w.ycFound = true) (hval : validate p = none)
    (h0 : _get_instance_by_name p.name (w.listOutcomes 0) = .ok none)
    (hcm : w.checkMode = false)
    (hmal : w.createOutcome = .ok none) :
    mainPass p w = mainPass p { w with createOutcome := CreateOutcome.ok (some (JVal.obj [])) }
    ∧ (∀ final, _poll_status (pollLookups p w) w.pollIters = .ok final →
        (mainPass p w).result = .ok (reportCreated p final)
        ∧ (reportCreated p final).changed = true) := by
  constructor
  · rw [mainPass_created_eq p w none hyc hval h0 hcm hmal,
        mainPass_created_eq p { w with createOutcome := CreateOutcome.ok (some (JVal.obj [])) }
          (some (JVal.obj [])) hyc hval h0 hcm rfl]
    rfl
  · intro final hfin
    rw [mainPass_created_eq p w none hyc hval h0 hcm hmal, hfin]
    exact ⟨rfl, reportCreated_changed p final⟩

/-- C10 witness: malformed create stdout, the poll then finds the
running record; the pass is identical to the well-formed-stdout pass and
reports the polled record. -/
theorem C10_witness :
    mainPass demoParams wBadCreateOut
      = mainPass demoParams
          { wBadCreateOut with createOutcome := CreateOutcome.ok (some (JVal.obj [])) }
    ∧ (mainPass demoParams wBadCreateOut).result
      = .ok (reportCreated demoParams (some demoRec)) := by
  obtain ⟨h1, h2⟩ := C10_create_parse_silent demoParams wBadCreateOut rfl rfl rfl rfl rfl
  exact ⟨h1, (h2 (some demoRec) rfl).1⟩

/-- C8: `_extract_public_ip` is a total Lean function (it can never
raise — every raising Python path is caught and embedded as `none`).
It returns the first interface's NAT-assigned address whenever the
nested chain is present and non-null, and returns `none` when the
record is not a dict, when there are no interfaces (key missing or empty
list), when the primary-address or NAT mapping is missing, or when the
nested structure has an unexpected shape (e.g. a number where the
interface list should be). -/
theorem C8_extract_total :
    (∀ (fs g h nf : List (String × JVal)) (rest : List JVal) (a : JVal),
      jlookup fs "network_interfaces" = some (.arr (JVal.obj g :: rest)) →
      jlookup g "primary_v4_address" = some (.obj h) →
      jlookup h "one_to_one_nat" = some (.obj nf) →
      jlookup nf "address" = some a → a ≠ JVal.null →
      _extract_public_ip (.obj fs) = some a)
    ∧ (∀ fs, jlookup fs "network_interfaces" = none → _extract_public_ip (.obj fs) = none)
    ∧ (∀ fs, jlookup fs "network_interfaces" = some (.arr []) →
        _extract_public_ip (.obj fs) = none)
    ∧ (∀ fs g rest, jlookup fs "network_interfaces" = some (.arr (JVal.obj g :: rest)) →
        jlookup g "primary_v4_address" = none → _extract_public_ip (.obj fs) = none)
    ∧ (∀ fs g h rest, jlookup fs "network_interfaces" = some (.arr (JVal.obj g :: rest)) →
        jlookup g "primary_v4_address" = some (.obj h) →
        jlookup h "one_to_one_nat" = none → _extract_public_ip (.obj fs) = none)
    ∧ (∀ inst : JVal, (∀ fs, inst ≠ .obj fs) → _extract_public_ip inst = none)
    ∧ (∀ fs n, jlookup fs "network_interfaces" = some (JVal.num n) →
        _extract_public_ip (.obj fs) = none) := by
  refine ⟨?_, ?_, ?_, ?_, ?_, ?_, ?_⟩
  · intro fs g h nf rest a h1 h2 h3 h4 h5
    obtain ⟨hx, ht, rfl⟩ : ∃ x t, h = x :: t := by
      cases h with
      | nil => simp [jlookup] at h3
      | cons x t => exact ⟨x, t, rfl⟩
    obtain ⟨nx, nt, rfl⟩ : ∃ x t, nf = x :: t := by
      cases nf with
      | nil => simp [jlookup] at h4
      | cons x t => exact ⟨x, t, rfl⟩
    cases a <;> simp_all [_extract_public_ip, pyOr, JVal.truthy]
  · intro fs h1
    simp [_extract_public_ip, h1, pyOr, JVal.truthy]
  · intro fs h1
    simp [_extract_public_ip, h1, pyOr, JVal.truthy]
  · intro fs g rest h1 h2
    simp [_extract_public_ip, h1, h2, pyOr, JVal.truthy, jlookup]
  · intro fs g h rest h1 h2 h3
    cases h with
    | nil => simp [_extract_public_ip, h1, h2, h3, pyOr, JVal.truthy, jlookup]
    | cons x t =>
      simp only [jlookup] at h3
      simp [_extract_public_ip, h1, h2, h3, pyOr, JVal.truthy, jlookup]
      try rfl
  · intro inst hne
    cases inst with
    | obj fs => exact absurd rfl (hne fs)
    | null => rfl
    | bool b => rfl
    | num n => rfl
    | str s => rfl
    | arr xs => rfl
  · intro fs n h1
    rcases eq_or_ne n 0 with rfl | hn
    · simp [_extract_public_ip, h1, pyOr, JVal.truthy]
    · simp [_extract_public_ip, h1, pyOr, JVal.truthy, hn]

/-- C8 witness: the address is extracted from the sample record; an
empty record and a non-dict record yield `none`. -/
theorem C8_witness :
    _extract_public_ip demoRec = some (.str "1.2.3.4")
    ∧ _extract_public_ip (JVal.obj []) = none
    ∧ _extract_public_ip (JVal.str "garbage") = none :=
  ⟨C8_extract_total.1 demoFields nicFields addrFields natFields [] (.str "1.2.3.4")
      rfl rfl rfl rfl (fun h => JVal.noConfusion h),
   C8_extract_total.2.1 [] rfl,
   C8_extract_total.2.2.2.2.2.1 (JVal.str "garbage") (fun fs h => JVal.noConfusion h)⟩
